/-
Verification of the ResumeForge document-mutation layer (src/tools.py, src/schema.py).

The Python data layer operates on a single JSON resume document: it loads the
document, applies one mutation, validates the whole document with Pydantic
models, and writes it back.  We embed that layer shallowly: the persisted
document is a `Resume` value, and every tool function becomes a Lean function
from the current document (plus its arguments) to the returned message together
with the document persisted after the call.  Error paths return the document
unchanged, mirroring the fact that the Python code returns before any write.

Python string details (`str.strip`, truthiness of `Optional[str]`, `int(...)`
parsing of id suffixes, `str.startswith`) are modelled explicitly below; we
restrict `strip`/`int` to their ASCII behaviour, which is the only behaviour
exercised by the repository's data.
-/
import Mathlib

namespace ResumeForge

/-- The ASCII whitespace characters removed by Python `str.strip()`:
space, tab, newline, carriage return, vertical tab, form feed. -/
def isPySpace (c : Char) : Bool :=
  c = ' ' || c = '\t' || c = '\n' || c = '\x0d' || c = '\x0b' || c = '\x0c'

/-- Remove leading Python-whitespace from a character list. -/
def pylstripL (l : List Char) : List Char :=
  l.dropWhile isPySpace

/-- Remove trailing Python-whitespace from a character list. -/
def pyrstripL (l : List Char) : List Char :=
  ((l.reverse).dropWhile isPySpace).reverse

/-- Python `s.strip()` (ASCII whitespace). -/
def pystrip (s : String) : String :=
  String.mk (pylstripL (pyrstripL s.data))

/-- Python `s.startswith(p)`. -/
def startswith (s p : String) : Bool :=
  s.data.take p.data.length == p.data

/-- Python `s.split("_")` on the character list: split at every underscore;
`n` underscores yield `n + 1` (possibly empty) segments. -/
def splitUnderscore : List Char → List (List Char)
  | [] => [[]]
  | c :: rest =>
      match splitUnderscore rest with
      | [] => [[]]
      | seg :: segs => if c = '_' then [] :: seg :: segs else (c :: seg) :: segs

/-- Truthiness of a Python `Optional[str]`: `None` and `""` are falsy. -/
def truthyStr : Option String → Bool
  | none => false
  | some s => s != ""

/-- Value of a nonempty all-ASCII-digit string. -/
def digitsVal? (l : List Char) : Option Nat :=
  if l = [] then none
  else if l.all (fun c => c.isDigit) then
    some (l.foldl (fun acc c => 10 * acc + (c.toNat - 48)) 0)
  else none

/-- Python `int(s)` for decimal strings: surrounding whitespace allowed,
optional sign, then ASCII digits; anything else raises (`none`).
(Underscore digit grouping and non-ASCII digits are not modelled; the id
segments this is applied to never contain them.) -/
def pyInt? (s : String) : Option Int :=
  match (pystrip s).data with
  | '+' :: ds => (digitsVal? ds).map (fun n => (n : Int))
  | '-' :: ds => (digitsVal? ds).map (fun n => -(n : Int))
  | ds => (digitsVal? ds).map (fun n => (n : Int))

/-- Python `max(l, default=d)` over integers. -/
def pyMaxD (l : List Int) (d : Int) : Int :=
  match l with
  | [] => d
  | x :: xs => xs.foldl max x

/-- Work experience entry (schema.py `Experience`). -/
structure Experience where
  id : String
  company : String
  role : String
  dates : String
  bullets : List String
deriving Repr, DecidableEq

/-- Project entry (schema.py `Project`). -/
structure Project where
  id : String
  name : String
  description : String
deriving Repr, DecidableEq

/-- Education entry (schema.py `Education`). -/
structure Education where
  id : String
  degree : String
  institution : String
  year : String
deriving Repr, DecidableEq

/-- The resume document (schema.py `Resume`), the single persisted JSON file. -/
structure Resume where
  summary : String
  experiences : List Experience
  skills : List String
  projects : List Project
  education : List Education
deriving Repr, DecidableEq

/-! ## JSON values

`_save_resume` validates a plain Python dict with `Resume(**data)` and then
serialises it with `json.dumps(data, indent=2)`; `get_section` and the
`get_*_by_id` tools also serialise with `json.dumps(..., indent=2)`.  We model
the JSON level with `JValue` (the resume data only ever holds strings, arrays
and objects; `jnum` and `jnull` keep wrongly-typed and missing data
expressible). -/

inductive JValue where
  | jstr : String → JValue
  | jnum : Int → JValue
  | jarr : List JValue → JValue
  | jobj : List (String × JValue) → JValue
  | jnull : JValue

/-- Lookup of a key in a JSON object (Python dict access / `.get`). -/
def jlookup : List (String × JValue) → String → Option JValue
  | [], _ => none
  | (k, v) :: rest, key => if k = key then some v else jlookup rest key

/-- A Pydantic `str` field accepts exactly JSON strings (any string,
including the empty string: the schema declares no length constraint). -/
def isJStr : JValue → Bool
  | .jstr _ => true
  | _ => false

/-- Validation of one `Experience` object by the Pydantic model in schema.py:
`id`, `company`, `role`, `dates` are required `str` fields; `bullets` is an
optional `List[str]` defaulting to `[]`. -/
def validExperienceJ : JValue → Bool
  | .jobj kvs =>
      (match jlookup kvs "id" with | some v => isJStr v | none => false) &&
      (match jlookup kvs "company" with | some v => isJStr v | none => false) &&
      (match jlookup kvs "role" with | some v => isJStr v | none => false) &&
      (match jlookup kvs "dates" with | some v => isJStr v | none => false) &&
      (match jlookup kvs "bullets" with
       | some (.jarr l) => l.all isJStr
       | some _ => false
       | none => true)
  | _ => false

/-- Validation of one `Project` object by the Pydantic model in schema.py. -/
def validProjectJ : JValue → Bool
  | .jobj kvs =>
      (match jlookup kvs "id" with | some v => isJStr v | none => false) &&
      (match jlookup kvs "name" with | some v => isJStr v | none => false) &&
      (match jlookup kvs "description" with | some v => isJStr v | none => false)
  | _ => false

/-- Validation of one `Education` object by the Pydantic model in schema.py. -/
def validEducationJ : JValue → Bool
  | .jobj kvs =>
      (match jlookup kvs "id" with | some v => isJStr v | none => false) &&
      (match jlookup kvs "degree" with | some v => isJStr v | none => false) &&
      (match jlookup kvs "institution" with | some v => isJStr v | none => false) &&
      (match jlookup kvs "year" with | some v => isJStr v | none => false)
  | _ => false

/-- Validation of a whole document by the Pydantic `Resume` model:
`summary` is a required `str`; the four collections are optional lists of the
respective shapes (each declared with `default_factory=list`).  This is what
`Resume(**data)` checks in `_save_resume`: field presence and types — nothing
about string emptiness. -/
def validResumeJ : JValue → Bool
  | .jobj kvs =>
      (match jlookup kvs "summary" with | some v => isJStr v | none => false) &&
      (match jlookup kvs "experiences" with
       | some (.jarr l) => l.all validExperienceJ
       | some _ => false
       | none => true) &&
      (match jlookup kvs "skills" with
       | some (.jarr l) => l.all isJStr
       | some _ => false
       | none => true) &&
      (match jlookup kvs "projects" with
       | some (.jarr l) => l.all validProjectJ
       | some _ => false
       | none => true) &&
      (match jlookup kvs "education" with
       | some (.jarr l) => l.all validEducationJ
       | some _ => false
       | none => true)
  | _ => false

/-- The JSON object an `Experience` is stored as. -/
def experienceToJson (e : Experience) : JValue :=
  .jobj [("id", .jstr e.id), ("company", .jstr e.company), ("role", .jstr e.role),
         ("dates", .jstr e.dates), ("bullets", .jarr (e.bullets.map .jstr))]

/-- The JSON object a `Project` is stored as. -/
def projectToJson (p : Project) : JValue :=
  .jobj [("id", .jstr p.id), ("name", .jstr p.name), ("description", .jstr p.description)]

/-- The JSON object an `Education` is stored as. -/
def educationToJson (e : Education) : JValue :=
  .jobj [("id", .jstr e.id), ("degree", .jstr e.degree),
         ("institution", .jstr e.institution), ("year", .jstr e.year)]

/-- The JSON document a `Resume` is stored as (the shape of resume.json). -/
def resumeToJson (r : Resume) : JValue :=
  .jobj [("summary", .jstr r.summary),
         ("experiences", .jarr (r.experiences.map experienceToJson)),
         ("skills", .jarr (r.skills.map .jstr)),
         ("projects", .jarr (r.projects.map projectToJson)),
         ("education", .jarr (r.education.map educationToJson))]

/-! ## json.dumps(..., indent=2) -/

/-- Lowercase hexadecimal digit. -/
def hexDig (n : Nat) : Char :=
  if n < 10 then Char.ofNat (48 + n) else Char.ofNat (87 + n)

/-- Four-digit lowercase hexadecimal rendering. -/
def hex4 (n : Nat) : String :=
  String.mk [hexDig (n / 4096 % 16), hexDig (n / 256 % 16), hexDig (n / 16 % 16), hexDig (n % 16)]

/-- `\uXXXX` escape (with surrogate pair above the BMP), as produced by
`json.dumps` with its default `ensure_ascii=True`. -/
def uEscape (n : Nat) : String :=
  if n < 0x10000 then "\\u" ++ hex4 n
  else "\\u" ++ hex4 (0xd800 + (n - 0x10000) / 0x400) ++ "\\u" ++ hex4 (0xdc00 + (n - 0x10000) % 0x400)

/-- Escaping of one character inside a JSON string literal, following
`json.dumps` defaults: the two-character escapes for quote, backslash and the
common control characters, `\uXXXX` for everything outside `0x20`–`0x7e`. -/
def escChar (c : Char) : String :=
  if c = '"' then "\\\""
  else if c = '\\' then "\\\\"
  else if c = '\n' then "\\n"
  else if c = '\t' then "\\t"
  else if c = '\x0d' then "\\r"
  else if c = '\x08' then "\\b"
  else if c = '\x0c' then "\\f"
  else if c.toNat < 0x20 || c.toNat > 0x7e then uEscape c.toNat
  else String.mk [c]

/-- Escaping of a whole JSON string body. -/
def jsonEscape (s : String) : String :=
  s.data.foldr (fun c acc => escChar c ++ acc) ""

/-- `2*lvl` spaces of indentation. -/
def spaces (lvl : Nat) : String :=
  String.mk (List.replicate (2 * lvl) ' ')

mutual

/-- `json.dumps(j, indent=2)` rendered at nesting level `lvl`. -/
def dumpJV (lvl : Nat) : JValue → String
  | .jstr s => "\"" ++ jsonEscape s ++ "\""
  | .jnum n => toString n
  | .jnull => "null"
  | .jarr [] => "[]"
  | .jarr (x :: xs) => "[\n" ++ dumpArr (lvl + 1) x xs ++ "\n" ++ spaces lvl ++ "]"
  | .jobj [] => "\x7b\x7d"
  | .jobj ((k, v) :: kvs) => "\x7b\n" ++ dumpObj (lvl + 1) k v kvs ++ "\n" ++ spaces lvl ++ "\x7d"
  termination_by j => sizeOf j

/-- Array items, one per line, comma-separated. -/
def dumpArr (lvl : Nat) (x : JValue) : List JValue → String
  | [] => spaces lvl ++ dumpJV lvl x
  | y :: ys => spaces lvl ++ dumpJV lvl x ++ ",\n" ++ dumpArr lvl y ys
  termination_by l => sizeOf x + sizeOf l

/-- Object members, one per line, comma-separated, `": "` after each key. -/
def dumpObj (lvl : Nat) (k : String) (v : JValue) : List (String × JValue) → String
  | [] => spaces lvl ++ "\"" ++ jsonEscape k ++ "\": " ++ dumpJV lvl v
  | (k2, v2) :: kvs => spaces lvl ++ "\"" ++ jsonEscape k ++ "\": " ++ dumpJV lvl v ++ ",\n" ++ dumpObj lvl k2 v2 kvs
  termination_by l => sizeOf v + sizeOf l

end

/-! ## The tool functions (src/tools.py)

Each Python tool loads the persisted document, possibly mutates it, validates
with `Resume(**data)` and writes it back, returning a message.  We model a tool
as a function from the current persisted `Resume` (plus the tool's arguments)
to the pair (returned message, persisted document after the call).  A branch
that returns before `_save_resume` keeps the document unchanged.
`add_experience`, `add_project` and `add_education` apply Python `int(...)` to
id suffixes and raise on unparsable suffixes, so they return an `Option`
(`none` models the uncaught exception). -/

/-- `_save_resume`: Pydantic validation (which always succeeds on a well-typed
document — see `validResumeJ_resumeToJson` below) followed by the write.  The
message is the function's return value. -/
def save_resume (d : Resume) : String × Resume :=
  ("Resume saved successfully.", d)

/-- `get_section`'s list of valid section names. -/
def valid_sections : List String :=
  ["summary", "experiences", "skills", "projects", "education"]

/-- The JSON value `data.get(section_name)` yields for a valid section name. -/
def sectionJson (d : Resume) (section_name : String) : JValue :=
  if section_name = "summary" then .jstr d.summary
  else if section_name = "experiences" then .jarr (d.experiences.map experienceToJson)
  else if section_name = "skills" then .jarr (d.skills.map .jstr)
  else if section_name = "projects" then .jarr (d.projects.map projectToJson)
  else if section_name = "education" then .jarr (d.education.map educationToJson)
  else .jnull

/-- `get_section`: Python renders `{valid_sections}` in the error message as the
list repr with single-quoted items. -/
def get_section (d : Resume) (section_name : String) : String :=
  if section_name ∈ valid_sections then dumpJV 0 (sectionJson d section_name)
  else "Error: Invalid section \x27" ++ section_name ++
       "\x27. Valid sections: [\x27summary\x27, \x27experiences\x27, \x27skills\x27, \x27projects\x27, \x27education\x27]"

/-- `get_summary`. -/
def get_summary (d : Resume) : String :=
  d.summary

/-- `update_summary`: rejects falsy or whitespace-only input, stores the
stripped summary. -/
def update_summary (d : Resume) (new_summary : String) : String × Resume :=
  if new_summary = "" || pystrip new_summary = "" then
    ("Error: Summary cannot be empty.", d)
  else
    save_resume { d with summary := pystrip new_summary }

/-- The `for exp in experiences: if exp["id"] == experience_id` lookup loop
(first match). -/
def find_experience : List Experience → String → Option Experience
  | [], _ => none
  | e :: rest, eid => if e.id = eid then some e else find_experience rest eid

/-- `get_experience_by_id`. -/
def get_experience_by_id (d : Resume) (experience_id : String) : String :=
  match find_experience d.experiences experience_id with
  | some e => dumpJV 0 (experienceToJson e)
  | none => "Error: Experience with ID \x27" ++ experience_id ++ "\x27 not found."

/-- Replace the first experience whose id matches, leaving the rest of the
list untouched; `none` when no id matches (the Python loop falls through). -/
def modify_experience (l : List Experience) (eid : String) (f : Experience → Experience) :
    Option (List Experience) :=
  match l with
  | [] => none
  | e :: rest =>
      if e.id = eid then some (f e :: rest)
      else (modify_experience rest eid f).map (fun l2 => e :: l2)

/-- The three `if company: ... if role: ... if dates: ...` field updates of
`update_experience` — note: the raw argument is stored, with no `strip()`. -/
def apply_experience_update (e : Experience) (company role dates : Option String) : Experience :=
  let e1 := if truthyStr company then { e with company := company.getD "" } else e
  let e2 := if truthyStr role then { e1 with role := role.getD "" } else e1
  if truthyStr dates then { e2 with dates := dates.getD "" } else e2

/-- `update_experience`. -/
def update_experience (d : Resume) (experience_id : String)
    (company role dates : Option String) : String × Resume :=
  match modify_experience d.experiences experience_id
      (fun e => apply_experience_update e company role dates) with
  | some l => save_resume { d with experiences := l }
  | none => ("Error: Experience with ID \x27" ++ experience_id ++ "\x27 not found.", d)

/-- The ids considered by the id generator of an `add_*` tool: those in the
collection that start with the section prefix (`str.startswith`). -/
def matchingIds (pre : String) (ids : List String) : List String :=
  ids.filter (fun i => startswith i pre)

/-- `int(id.split("_")[1])`: the second `"_"`-separated segment of an id,
parsed as a Python int (`none` when `int` would raise). -/
def idSuffix? (id : String) : Option Int :=
  match (splitUnderscore id.data).get? 1 with
  | some seg => pyInt? (String.mk seg)
  | none => none

/-- `add_experience`: generates `exp_<max+1>`, *prepends* the new entry, and
stores company/role/dates/bullets exactly as given (no `strip()`).  `none`
models the `ValueError` `int(...)` raises on a malformed matching id. -/
def add_experience (d : Resume) (company role dates : String)
    (bullets : Option (List String)) : Option (String × Resume) :=
  match (matchingIds "exp_" (d.experiences.map (fun e => e.id))).mapM idSuffix? with
  | none => none
  | some existing_ids =>
      let new_id := "exp_" ++ toString (pyMaxD existing_ids 0 + 1)
      let new_exp : Experience :=
        { id := new_id, company := company, role := role, dates := dates,
          bullets := bullets.getD [] }
      some ("Experience added successfully with ID: " ++ new_id,
            { d with experiences := new_exp :: d.experiences })

/-- `remove_experience`: filters out the id; an unchanged length means the id
was not found and nothing is saved. -/
def remove_experience (d : Resume) (experience_id : String) : String × Resume :=
  if (d.experiences.filter (fun e => e.id ≠ experience_id)).length = d.experiences.length then
    ("Error: Experience with ID \x27" ++ experience_id ++ "\x27 not found.", d)
  else
    save_resume { d with experiences := d.experiences.filter (fun e => e.id ≠ experience_id) }

/-- `add_bullet`: appends the stripped bullet to the matching experience. -/
def add_bullet (d : Resume) (experience_id bullet : String) : String × Resume :=
  if bullet = "" || pystrip bullet = "" then
    ("Error: Bullet text cannot be empty.", d)
  else
    match modify_experience d.experiences experience_id
        (fun e => { e with bullets := e.bullets ++ [pystrip bullet] }) with
    | some l => save_resume { d with experiences := l }
    | none => ("Error: Experience with ID \x27" ++ experience_id ++ "\x27 not found.", d)

/-- The out-of-range message of `update_bullet` and `remove_bullet`. -/
def bulletRangeError (bullet_index : Int) (n : Nat) : String :=
  "Error: Bullet index " ++ toString bullet_index ++
  " out of range. Experience has " ++ toString n ++ " bullets."

/-- The loop of `update_bullet`: find the experience, then either update the
indexed bullet (`Except.ok` with the new list) or report the out-of-range
error (`Except.error`); `none` when no id matches. -/
def update_bullet_go (eid : String) (bullet_index : Int) (new_bullet : String) :
    List Experience → Option (Except String (List Experience))
  | [] => none
  | e :: rest =>
      if e.id = eid then
        if 0 ≤ bullet_index ∧ bullet_index < (e.bullets.length : Int) then
          some (.ok ({ e with bullets := e.bullets.set bullet_index.toNat (pystrip new_bullet) } :: rest))
        else
          some (.error (bulletRangeError bullet_index e.bullets.length))
      else
        (update_bullet_go eid bullet_index new_bullet rest).map (fun r =>
          match r with
          | .ok l => .ok (e :: l)
          | .error m => .error m)

/-- `update_bullet`: the empty-text check runs before anything else. -/
def update_bullet (d : Resume) (experience_id : String) (bullet_index : Int)
    (new_bullet : String) : String × Resume :=
  if new_bullet = "" || pystrip new_bullet = "" then
    ("Error: Bullet text cannot be empty.", d)
  else
    match update_bullet_go experience_id bullet_index new_bullet d.experiences with
    | some (.ok l) => save_resume { d with experiences := l }
    | some (.error m) => (m, d)
    | none => ("Error: Experience with ID \x27" ++ experience_id ++ "\x27 not found.", d)

/-- The loop of `remove_bullet`: on success carries the removed bullet text
(`bullets.pop(index)`) together with the new list. -/
def remove_bullet_go (eid : String) (bullet_index : Int) :
    List Experience → Option (Except String (String × List Experience))
  | [] => none
  | e :: rest =>
      if e.id = eid then
        if 0 ≤ bullet_index ∧ bullet_index < (e.bullets.length : Int) then
          some (.ok (e.bullets.getD bullet_index.toNat "",
                     { e with bullets := e.bullets.eraseIdx bullet_index.toNat } :: rest))
        else
          some (.error (bulletRangeError bullet_index e.bullets.length))
      else
        (remove_bullet_go eid bullet_index rest).map (fun r =>
          match r with
          | .ok p => .ok (p.1, e :: p.2)
          | .error m => .error m)

/-- `remove_bullet`: the confirmation message truncates the removed text at 50
characters with an ellipsis marker. -/
def remove_bullet (d : Resume) (experience_id : String) (bullet_index : Int) : String × Resume :=
  match remove_bullet_go experience_id bullet_index d.experiences with
  | some (.ok (removed, l)) =>
      if removed.length > 50 then
        ("Bullet removed: \x27" ++ removed.take 50 ++ "...\x27",
         (save_resume { d with experiences := l }).2)
      else
        ("Bullet removed: \x27" ++ removed ++ "\x27",
         (save_resume { d with experiences := l }).2)
  | some (.error m) => (m, d)
  | none => ("Error: Experience with ID \x27" ++ experience_id ++ "\x27 not found.", d)

/-- `add_skill`: strips, rejects empty and exact (case-sensitive) duplicates,
appends at the end. -/
def add_skill (d : Resume) (skill : String) : String × Resume :=
  if skill = "" || pystrip skill = "" then
    ("Error: Skill cannot be empty.", d)
  else if pystrip skill ∈ d.skills then
    ("Skill \x27" ++ pystrip skill ++ "\x27 already exists.", d)
  else
    save_resume { d with skills := d.skills ++ [pystrip skill] }

/-- `remove_skill`: strips, then removes the first exact occurrence
(`list.remove`); missing skill is a not-found error. -/
def remove_skill (d : Resume) (skill : String) : String × Resume :=
  if pystrip skill ∈ d.skills then
    save_resume { d with skills := d.skills.erase (pystrip skill) }
  else
    ("Error: Skill \x27" ++ pystrip skill ++ "\x27 not found.", d)

/-- First project whose id matches. -/
def find_project : List Project → String → Option Project
  | [], _ => none
  | p :: rest, pid => if p.id = pid then some p else find_project rest pid

/-- `get_project_by_id`. -/
def get_project_by_id (d : Resume) (project_id : String) : String :=
  match find_project d.projects project_id with
  | some p => dumpJV 0 (projectToJson p)
  | none => "Error: Project with ID \x27" ++ project_id ++ "\x27 not found."

/-- `add_project`: validates both fields, generates `proj_<max+1>`, stores the
stripped fields and *appends* the new entry. -/
def add_project (d : Resume) (name description : String) : Option (String × Resume) :=
  if name = "" || pystrip name = "" then
    some ("Error: Project name cannot be empty.", d)
  else if description = "" || pystrip description = "" then
    some ("Error: Project description cannot be empty.", d)
  else
    match (matchingIds "proj_" (d.projects.map (fun p => p.id))).mapM idSuffix? with
    | none => none
    | some existing_ids =>
        let new_id := "proj_" ++ toString (pyMaxD existing_ids 0 + 1)
        let new_proj : Project :=
          { id := new_id, name := pystrip name, description := pystrip description }
        some ("Project added successfully with ID: " ++ new_id,
              { d with projects := d.projects ++ [new_proj] })

/-- Replace the first project whose id matches. -/
def modify_project (l : List Project) (pid : String) (f : Project → Project) :
    Option (List Project) :=
  match l with
  | [] => none
  | p :: rest =>
      if p.id = pid then some (f p :: rest)
      else (modify_project rest pid f).map (fun l2 => p :: l2)

/-- The field updates of `update_project` — truthy arguments are stored
*stripped* (so a whitespace-only argument stores the empty string). -/
def apply_project_update (p : Project) (name description : Option String) : Project :=
  let p1 := if truthyStr name then { p with name := pystrip (name.getD "") } else p
  if truthyStr description then { p1 with description := pystrip (description.getD "") } else p1

/-- `update_project`. -/
def update_project (d : Resume) (project_id : String)
    (name description : Option String) : String × Resume :=
  match modify_project d.projects project_id
      (fun p => apply_project_update p name description) with
  | some l => save_resume { d with projects := l }
  | none => ("Error: Project with ID \x27" ++ project_id ++ "\x27 not found.", d)

/-- `remove_project`. -/
def remove_project (d : Resume) (project_id : String) : String × Resume :=
  if (d.projects.filter (fun p => p.id ≠ project_id)).length = d.projects.length then
    ("Error: Project with ID \x27" ++ project_id ++ "\x27 not found.", d)
  else
    save_resume { d with projects := d.projects.filter (fun p => p.id ≠ project_id) }

/-- First education entry whose id matches. -/
def find_education : List Education → String → Option Education
  | [], _ => none
  | e :: rest, eid => if e.id = eid then some e else find_education rest eid

/-- `get_education_by_id`. -/
def get_education_by_id (d : Resume) (education_id : String) : String :=
  match find_education d.education education_id with
  | some e => dumpJV 0 (educationToJson e)
  | none => "Error: Education with ID \x27" ++ education_id ++ "\x27 not found."

/-- Replace the first education entry whose id matches. -/
def modify_education (l : List Education) (eid : String) (f : Education → Education) :
    Option (List Education) :=
  match l with
  | [] => none
  | e :: rest =>
      if e.id = eid then some (f e :: rest)
      else (modify_education rest eid f).map (fun l2 => e :: l2)

/-- The field updates of `update_education` — truthy arguments are stored
*stripped* (so a whitespace-only argument stores the empty string). -/
def apply_education_update (e : Education) (degree institution year : Option String) : Education :=
  let e1 := if truthyStr degree then { e with degree := pystrip (degree.getD "") } else e
  let e2 := if truthyStr institution then { e1 with institution := pystrip (institution.getD "") } else e1
  if truthyStr year then { e2 with year := pystrip (year.getD "") } else e2

/-- `update_education`. -/
def update_education (d : Resume) (education_id : String)
    (degree institution year : Option String) : String × Resume :=
  match modify_education d.education education_id
      (fun e => apply_education_update e degree institution year) with
  | some l => save_resume { d with education := l }
  | none => ("Error: Education with ID \x27" ++ education_id ++ "\x27 not found.", d)

/-- `add_education`: validates all three fields, generates `edu_<max+1>`,
stores the stripped fields and *appends* the new entry. -/
def add_education (d : Resume) (degree institution year : String) : Option (String × Resume) :=
  if degree = "" || pystrip degree = "" then
    some ("Error: Degree cannot be empty.", d)
  else if institution = "" || pystrip institution = "" then
    some ("Error: Institution cannot be empty.", d)
  else if year = "" || pystrip year = "" then
    some ("Error: Year cannot be empty.", d)
  else
    match (matchingIds "edu_" (d.education.map (fun e => e.id))).mapM idSuffix? with
    | none => none
    | some existing_ids =>
        let new_id := "edu_" ++ toString (pyMaxD existing_ids 0 + 1)
        let new_edu : Education :=
          { id := new_id, degree := pystrip degree, institution := pystrip institution,
            year := pystrip year }
        some ("Education added successfully with ID: " ++ new_id,
              { d with education := d.education ++ [new_edu] })

/-- `remove_education`. -/
def remove_education (d : Resume) (education_id : String) : String × Resume :=
  if (d.education.filter (fun e => e.id ≠ education_id)).length = d.education.length then
    ("Error: Education with ID \x27" ++ education_id ++ "\x27 not found.", d)
  else
    save_resume { d with education := d.education.filter (fun e => e.id ≠ education_id) }

/-- A returned message is an error description exactly when it carries the
`"Error:"` sentinel the tools use for every error except `add_skill`'s
duplicate report (which is covered separately below). -/
def isErrorMsg (m : String) : Bool :=
  m.data.take 6 == "Error:".data

theorem isErrorMsg_save (d : Resume) : isErrorMsg (save_resume d).1 = false := rfl

theorem isErrorMsg_added_exp (x : String) :
    isErrorMsg ("Experience added successfully with ID: " ++ x) = false := rfl

theorem isErrorMsg_added_proj (x : String) :
    isErrorMsg ("Project added successfully with ID: " ++ x) = false := rfl

theorem isErrorMsg_added_edu (x : String) :
    isErrorMsg ("Education added successfully with ID: " ++ x) = false := rfl

theorem isErrorMsg_removed_long (x y : String) :
    isErrorMsg ("Bullet removed: \x27" ++ x ++ y) = false := rfl

theorem isErrorMsg_removed (x : String) :
    isErrorMsg ("Bullet removed: \x27" ++ x) = false := rfl

/-! ## Lemmas about Python `strip` -/

theorem dropWhile_append_space (w l : List Char) (h : ∀ c ∈ w, isPySpace c) :
    (w ++ l).dropWhile isPySpace = l.dropWhile isPySpace := by
  induction w with
  | nil => simp
  | cons c w ih =>
      simp only [List.cons_append]
      rw [List.dropWhile_cons_of_pos (h c (by simp))]
      exact ih (fun c hc => h c (by simp [hc]))

theorem dropWhile_append_of_ne_nil (a b : List Char) (h : a.dropWhile isPySpace ≠ []) :
    (a ++ b).dropWhile isPySpace = a.dropWhile isPySpace ++ b := by
  induction a with
  | nil => simp at h
  | cons c a ih =>
      by_cases hc : isPySpace c
      · simp only [List.cons_append, List.dropWhile_cons_of_pos hc]
        rw [List.dropWhile_cons_of_pos hc] at h
        exact ih h
      · rw [List.cons_append, List.dropWhile_cons_of_neg hc, List.dropWhile_cons_of_neg hc]
        simp

theorem pylstripL_append_space (w l : List Char) (h : ∀ c ∈ w, isPySpace c) :
    pylstripL (w ++ l) = pylstripL l :=
  dropWhile_append_space w l h

theorem pyrstripL_append_space (l w : List Char) (h : ∀ c ∈ w, isPySpace c) :
    pyrstripL (l ++ w) = pyrstripL l := by
  unfold pyrstripL
  rw [List.reverse_append, dropWhile_append_space]
  intro c hc
  exact h c (List.mem_reverse.mp hc)

theorem pyrstripL_eq_nil (l : List Char) (h : ∀ c ∈ l, isPySpace c) :
    pyrstripL l = [] := by
  unfold pyrstripL
  rw [List.dropWhile_eq_nil_iff.mpr (fun c hc => h c (List.mem_reverse.mp hc))]
  rfl

theorem all_space_of_pyrstripL_eq_nil (l : List Char) (h : pyrstripL l = []) :
    ∀ c ∈ l, isPySpace c := by
  unfold pyrstripL at h
  rw [List.reverse_eq_nil_iff] at h
  intro c hc
  exact List.dropWhile_eq_nil_iff.mp h c (List.mem_reverse.mpr hc)

theorem pyrstripL_space_append (w l : List Char) (h : ∀ c ∈ w, isPySpace c) :
    pyrstripL (w ++ l) = if pyrstripL l = [] then [] else w ++ pyrstripL l := by
  by_cases hl : pyrstripL l = []
  · rw [if_pos hl]
    refine pyrstripL_eq_nil _ ?_
    intro c hc
    rcases List.mem_append.mp hc with hc1 | hc2
    · exact h c hc1
    · exact all_space_of_pyrstripL_eq_nil l hl c hc2
  · rw [if_neg hl]
    unfold pyrstripL at hl ⊢
    rw [List.reverse_append]
    rw [dropWhile_append_of_ne_nil]
    · rw [List.reverse_append, List.reverse_reverse]
    · intro hcon
      exact hl (by rw [hcon]; rfl)

theorem string_data_append (a b : String) : (a ++ b).data = a.data ++ b.data := rfl

/-- Python `strip` erases any surrounding whitespace: padding a string on both
sides with whitespace does not change its stripped value. -/
theorem pystrip_pad (w1 s w2 : String) (h1 : ∀ c ∈ w1.data, isPySpace c)
    (h2 : ∀ c ∈ w2.data, isPySpace c) :
    pystrip (w1 ++ s ++ w2) = pystrip s := by
  unfold pystrip
  rw [string_data_append, string_data_append]
  rw [List.append_assoc, pyrstripL_space_append w1.data _ h1,
      pyrstripL_append_space s.data w2.data h2]
  by_cases hs : pyrstripL s.data = []
  · rw [if_pos hs, hs]
  · rw [if_neg hs, pylstripL_append_space w1.data _ h1]

/-- C10 (helper): `remove_skill` is invariant under whitespace padding of its
argument, because it strips the argument before matching. -/
theorem remove_skill_pad (d : Resume) (w1 s w2 : String) (h1 : ∀ c ∈ w1.data, isPySpace c)
    (h2 : ∀ c ∈ w2.data, isPySpace c) :
    remove_skill d (w1 ++ s ++ w2) = remove_skill d s := by
  unfold remove_skill
  rw [pystrip_pad w1 s w2 h1 h2]

/-- A validation condition `not s or not s.strip()` is false exactly when the
stripped string is nonempty. -/
theorem not_empty_cond (s : String) (h : pystrip s ≠ "") : (s = "" || pystrip s = "") = false := by
  have hs : s ≠ "" := by
    intro he
    apply h
    rw [he]
    rfl
  simp [hs, h]

/-- Modelled from the claim's words (the spec side of the id-generation
refinement): the new id suffix is one plus the maximum numeric suffix among
the prefix-matching ids, and 1 when no id matches the prefix. -/
def claimNextSuffix (suffixes : List Int) : Int :=
  match suffixes with
  | [] => 1
  | x :: xs => xs.foldl max x + 1

/-- The code's `max(existing_ids, default=0) + 1` equals the spec's
"max numeric suffix + 1, or 1 on no match". -/
theorem pyMaxD_claim (l : List Int) : pyMaxD l 0 + 1 = claimNextSuffix l := by
  cases l <;> rfl

/-! ## Concrete documents used in witnesses and counterexamples -/

/-- A small valid document exercising every section. -/
def sampleDoc : Resume :=
  { summary := "Experienced engineer",
    experiences := [{ id := "exp_1", company := "Acme", role := "Dev", dates := "2020",
                      bullets := ["b1", "b2", "b3"] },
                    { id := "exp_3", company := "Beta", role := "Eng", dates := "2021",
                      bullets := [] }],
    skills := ["Python"],
    projects := [{ id := "proj_1", name := "Site", description := "Web app" }],
    education := [{ id := "edu_1", degree := "BS", institution := "State U", year := "2019" }] }

/-! ## Claims -/

/-- C1: for every mutating operation, an error outcome (not-found id,
invalid/empty input, out-of-range bullet index, duplicate skill) leaves the
persisted document exactly as it was: every error path returns before
`_save_resume`.  Errors are the `"Error:"`-sentinel messages; for `add_skill`
(whose duplicate report lacks the sentinel) we prove the stronger fact that
any change to the document comes with the success message, so both of its
error messages leave the document unchanged. -/
theorem C1_no_write_on_error (d : Resume) :
    (∀ s, isErrorMsg (update_summary d s).1 = true → (update_summary d s).2 = d)
  ∧ (∀ eid c r dt, isErrorMsg (update_experience d eid c r dt).1 = true → (update_experience d eid c r dt).2 = d)
  ∧ (∀ c r dt b p, add_experience d c r dt b = some p → isErrorMsg p.1 = true → p.2 = d)
  ∧ (∀ eid, isErrorMsg (remove_experience d eid).1 = true → (remove_experience d eid).2 = d)
  ∧ (∀ eid b, isErrorMsg (add_bullet d eid b).1 = true → (add_bullet d eid b).2 = d)
  ∧ (∀ eid i nb, isErrorMsg (update_bullet d eid i nb).1 = true → (update_bullet d eid i nb).2 = d)
  ∧ (∀ eid i, isErrorMsg (remove_bullet d eid i).1 = true → (remove_bullet d eid i).2 = d)
  ∧ (∀ s, (add_skill d s).2 ≠ d → (add_skill d s).1 = "Resume saved successfully.")
  ∧ (∀ s, isErrorMsg (remove_skill d s).1 = true → (remove_skill d s).2 = d)
  ∧ (∀ n ds p, add_project d n ds = some p → isErrorMsg p.1 = true → p.2 = d)
  ∧ (∀ pid n ds, isErrorMsg (update_project d pid n ds).1 = true → (update_project d pid n ds).2 = d)
  ∧ (∀ pid, isErrorMsg (remove_project d pid).1 = true → (remove_project d pid).2 = d)
  ∧ (∀ dg ins y p, add_education d dg ins y = some p → isErrorMsg p.1 = true → p.2 = d)
  ∧ (∀ eid dg ins y, isErrorMsg (update_education d eid dg ins y).1 = true → (update_education d eid dg ins y).2 = d)
  ∧ (∀ eid, isErrorMsg (remove_education d eid).1 = true → (remove_education d eid).2 = d) := by
  refine ⟨?_, ?_, ?_, ?_, ?_, ?_, ?_, ?_, ?_, ?_, ?_, ?_, ?_, ?_, ?_⟩
  · intro s
    unfold update_summary
    split
    · intro _; rfl
    · intro h; rw [isErrorMsg_save] at h; exact Bool.noConfusion h
  · intro eid c r dt
    unfold update_experience
    split
    · intro h; rw [isErrorMsg_save] at h; exact Bool.noConfusion h
    · intro _; rfl
  · intro c r dt b p hp h
    unfold add_experience at hp
    revert hp
    split
    · intro hp; cases hp
    · intro hp
      injection hp with hp
      rw [← hp] at h
      rw [isErrorMsg_added_exp] at h
      exact Bool.noConfusion h
  · intro eid
    unfold remove_experience
    split
    · intro _; rfl
    · intro h; rw [isErrorMsg_save] at h; exact Bool.noConfusion h
  · intro eid b
    unfold add_bullet
    split
    · intro _; rfl
    · split
      · intro h; rw [isErrorMsg_save] at h; exact Bool.noConfusion h
      · intro _; rfl
  · intro eid i nb
    unfold update_bullet
    split
    · intro _; rfl
    · split
      · intro h; rw [isErrorMsg_save] at h; exact Bool.noConfusion h
      · intro _; rfl
      · intro _; rfl
  · intro eid i
    unfold remove_bullet
    split
    · split
      · intro h; rw [isErrorMsg_removed_long] at h; exact Bool.noConfusion h
      · intro h; rw [isErrorMsg_removed_long] at h; exact Bool.noConfusion h
    · intro _; rfl
    · intro _; rfl
  · intro s
    unfold add_skill
    split
    · intro h; exact absurd rfl h
    · split
      · intro h; exact absurd rfl h
      · intro _; rfl
  · intro s
    unfold remove_skill
    split
    · intro h; rw [isErrorMsg_save] at h; exact Bool.noConfusion h
    · intro _; rfl
  · intro n ds p hp h
    unfold add_project at hp
    revert hp
    split
    · intro hp; injection hp with hp; rw [← hp]
    · split
      · intro hp; injection hp with hp; rw [← hp]
      · split
        · intro hp; cases hp
        · intro hp
          injection hp with hp
          rw [← hp] at h
          rw [isErrorMsg_added_proj] at h
          exact Bool.noConfusion h
  · intro pid n ds
    unfold update_project
    split
    · intro h; rw [isErrorMsg_save] at h; exact Bool.noConfusion h
    · intro _; rfl
  · intro pid
    unfold remove_project
    split
    · intro _; rfl
    · intro h; rw [isErrorMsg_save] at h; exact Bool.noConfusion h
  · intro dg ins y p hp h
    unfold add_education at hp
    revert hp
    split
    · intro hp; injection hp with hp; rw [← hp]
    · split
      · intro hp; injection hp with hp; rw [← hp]
      · split
        · intro hp; injection hp with hp; rw [← hp]
        · split
          · intro hp; cases hp
          · intro hp
            injection hp with hp
            rw [← hp] at h
            rw [isErrorMsg_added_edu] at h
            exact Bool.noConfusion h
  · intro eid dg ins y
    unfold update_education
    split
    · intro h; rw [isErrorMsg_save] at h; exact Bool.noConfusion h
    · intro _; rfl
  · intro eid
    unfold remove_education
    split
    · intro _; rfl
    · intro h; rw [isErrorMsg_save] at h; exact Bool.noConfusion h

/-- C1 witness: `update_summary` with the empty string is an error and leaves
the sample document untouched. -/
theorem C1_witness :
    isErrorMsg (update_summary sampleDoc "").1 = true ∧ (update_summary sampleDoc "").2 = sampleDoc :=
  ⟨by decide, (C1_no_write_on_error sampleDoc).1 "" (by decide)⟩

/-- C2: for each id-bearing add operation (`add_experience`, `add_project`,
`add_education`) and every current document whose prefix-matching ids all
parse (otherwise Python's `int(...)` raises and no id is generated), the
newly generated id is the section's prefix followed by one plus the maximum
numeric suffix among the prefix-matching ids, and suffix 1 when no id matches
the prefix (`claimNextSuffix`).  The new experience sits at the head of the
list, the new project/education entry at the end. -/
theorem C2_new_id_is_max_suffix_plus_one (d : Resume) (sfxE sfxP sfxD : List Int)
    (hE : (matchingIds "exp_" (d.experiences.map (fun e => e.id))).mapM idSuffix? = some sfxE)
    (hP : (matchingIds "proj_" (d.projects.map (fun p => p.id))).mapM idSuffix? = some sfxP)
    (hD : (matchingIds "edu_" (d.education.map (fun e => e.id))).mapM idSuffix? = some sfxD) :
    (∀ c r dt b, ∃ msg d2, add_experience d c r dt b = some (msg, d2) ∧
        (d2.experiences.head?).map (fun e => e.id) = some ("exp_" ++ toString (claimNextSuffix sfxE)))
  ∧ (∀ n ds, pystrip n ≠ "" → pystrip ds ≠ "" → ∃ msg d2, add_project d n ds = some (msg, d2) ∧
        (d2.projects.getLast?).map (fun p => p.id) = some ("proj_" ++ toString (claimNextSuffix sfxP)))
  ∧ (∀ dg ins y, pystrip dg ≠ "" → pystrip ins ≠ "" → pystrip y ≠ "" →
        ∃ msg d2, add_education d dg ins y = some (msg, d2) ∧
        (d2.education.getLast?).map (fun e => e.id) = some ("edu_" ++ toString (claimNextSuffix sfxD))) := by
  refine ⟨?_, ?_, ?_⟩
  · intro c r dt b
    unfold add_experience
    rw [hE]
    refine ⟨_, _, rfl, ?_⟩
    simp only [List.head?_cons, Option.map_some']
    rw [pyMaxD_claim]
  · intro n ds hn hds
    unfold add_project
    rw [not_empty_cond n hn, not_empty_cond ds hds]
    simp only [Bool.false_eq_true, if_false]
    rw [hP]
    refine ⟨_, _, rfl, ?_⟩
    rw [List.getLast?_concat]
    simp only [Option.map_some']
    rw [pyMaxD_claim]
  · intro dg ins y hdg hins hy
    unfold add_education
    rw [not_empty_cond dg hdg, not_empty_cond ins hins, not_empty_cond y hy]
    simp only [Bool.false_eq_true, if_false]
    rw [hD]
    refine ⟨_, _, rfl, ?_⟩
    rw [List.getLast?_concat]
    simp only [Option.map_some']
    rw [pyMaxD_claim]

/-- C2 witness: on the sample document (experience ids `exp_1`, `exp_3`) the
generated experience id is `exp_4` — max + 1, not count + 1. -/
theorem C2_witness :
    (∃ msg d2, add_experience sampleDoc "C" "R" "D" none = some (msg, d2) ∧
        (d2.experiences.head?).map (fun e => e.id) = some ("exp_" ++ toString (claimNextSuffix [1, 3])))
  ∧ ("exp_" ++ toString (claimNextSuffix [1, 3])) = "exp_4" := by
  have h := C2_new_id_is_max_suffix_plus_one sampleDoc [1, 3] [1] [1]
    (by decide) (by decide) (by decide)
  exact ⟨h.1 "C" "R" "D" none, by decide⟩

/-- C6: a successful `add_experience` inserts the new entry at index 0 of the
experiences list while a successful `add_project` / `add_education` appends
its new entry at the end; all previous entries keep their relative order (the
rest of the list is carried over unchanged). -/
theorem C6_add_positions (d : Resume) (sfxE sfxP sfxD : List Int)
    (hE : (matchingIds "exp_" (d.experiences.map (fun e => e.id))).mapM idSuffix? = some sfxE)
    (hP : (matchingIds "proj_" (d.projects.map (fun p => p.id))).mapM idSuffix? = some sfxP)
    (hD : (matchingIds "edu_" (d.education.map (fun e => e.id))).mapM idSuffix? = some sfxD) :
    (∀ c r dt b, ∃ e, add_experience d c r dt b =
        some ("Experience added successfully with ID: " ++ e.id,
              { d with experiences := e :: d.experiences }))
  ∧ (∀ n ds, pystrip n ≠ "" → pystrip ds ≠ "" → ∃ p, add_project d n ds =
        some ("Project added successfully with ID: " ++ p.id,
              { d with projects := d.projects ++ [p] }))
  ∧ (∀ dg ins y, pystrip dg ≠ "" → pystrip ins ≠ "" → pystrip y ≠ "" → ∃ e, add_education d dg ins y =
        some ("Education added successfully with ID: " ++ e.id,
              { d with education := d.education ++ [e] })) := by
  refine ⟨?_, ?_, ?_⟩
  · intro c r dt b
    unfold add_experience
    rw [hE]
    exact ⟨{ id := "exp_" ++ toString (pyMaxD sfxE 0 + 1), company := c, role := r,
             dates := dt, bullets := b.getD [] }, rfl⟩
  · intro n ds hn hds
    unfold add_project
    rw [not_empty_cond n hn, not_empty_cond ds hds]
    simp only [Bool.false_eq_true, if_false]
    rw [hP]
    exact ⟨{ id := "proj_" ++ toString (pyMaxD sfxP 0 + 1), name := pystrip n,
             description := pystrip ds }, rfl⟩
  · intro dg ins y hdg hins hy
    unfold add_education
    rw [not_empty_cond dg hdg, not_empty_cond ins hins, not_empty_cond y hy]
    simp only [Bool.false_eq_true, if_false]
    rw [hD]
    exact ⟨{ id := "edu_" ++ toString (pyMaxD sfxD 0 + 1), degree := pystrip dg,
             institution := pystrip ins, year := pystrip y }, rfl⟩

/-- C6 witness: on the sample document the new experience lands at the front
and the new project at the back. -/
theorem C6_witness :
    (∃ e, add_experience sampleDoc "C" "R" "D" none =
        some ("Experience added successfully with ID: " ++ e.id,
              { sampleDoc with experiences := e :: sampleDoc.experiences }))
  ∧ (∃ p, add_project sampleDoc "NewP" "NewD" =
        some ("Project added successfully with ID: " ++ p.id,
              { sampleDoc with projects := sampleDoc.projects ++ [p] })) := by
  have h := C6_add_positions sampleDoc [1, 3] [1] [1] (by decide) (by decide) (by decide)
  exact ⟨h.1 "C" "R" "D" none, h.2.1 "NewP" "NewD" (by decide) (by decide)⟩

/-- The experience-lookup loop falls through exactly on documents where no
experience carries the requested id. -/
theorem find_experience_eq_none (l : List Experience) (eid : String)
    (h : ∀ e ∈ l, e.id ≠ eid) : find_experience l eid = none := by
  induction l with
  | nil => rfl
  | cons e rest ih =>
      unfold find_experience
      rw [if_neg (h e (List.mem_cons_self e rest))]
      exact ih (fun x hx => h x (List.mem_cons_of_mem e hx))

theorem find_project_eq_none (l : List Project) (pid : String)
    (h : ∀ p ∈ l, p.id ≠ pid) : find_project l pid = none := by
  induction l with
  | nil => rfl
  | cons p rest ih =>
      unfold find_project
      rw [if_neg (h p (List.mem_cons_self p rest))]
      exact ih (fun x hx => h x (List.mem_cons_of_mem p hx))

theorem find_education_eq_none (l : List Education) (eid : String)
    (h : ∀ e ∈ l, e.id ≠ eid) : find_education l eid = none := by
  induction l with
  | nil => rfl
  | cons e rest ih =>
      unfold find_education
      rw [if_neg (h e (List.mem_cons_self e rest))]
      exact ih (fun x hx => h x (List.mem_cons_of_mem e hx))

/-- C9: every lookup with an unknown key — a section name outside the five
valid sections, or an entity id that matches nothing — returns the
descriptive error string.  The embedded lookups are total Lean functions, so
no exception is possible on any input. -/
theorem C9_unknown_lookup_returns_error (d : Resume) :
    (∀ name, name ∉ valid_sections →
        get_section d name = "Error: Invalid section \x27" ++ name ++
          "\x27. Valid sections: [\x27summary\x27, \x27experiences\x27, \x27skills\x27, \x27projects\x27, \x27education\x27]")
  ∧ (∀ eid, (∀ e ∈ d.experiences, e.id ≠ eid) →
        get_experience_by_id d eid = "Error: Experience with ID \x27" ++ eid ++ "\x27 not found.")
  ∧ (∀ pid, (∀ p ∈ d.projects, p.id ≠ pid) →
        get_project_by_id d pid = "Error: Project with ID \x27" ++ pid ++ "\x27 not found.")
  ∧ (∀ eid, (∀ e ∈ d.education, e.id ≠ eid) →
        get_education_by_id d eid = "Error: Education with ID \x27" ++ eid ++ "\x27 not found.") := by
  refine ⟨?_, ?_, ?_, ?_⟩
  · intro name hname
    unfold get_section
    rw [if_neg hname]
  · intro eid h
    unfold get_experience_by_id
    rw [find_experience_eq_none d.experiences eid h]
  · intro pid h
    unfold get_project_by_id
    rw [find_project_eq_none d.projects pid h]
  · intro eid h
    unfold get_education_by_id
    rw [find_education_eq_none d.education eid h]

/-- C9 witness: the unknown section `"foo"` and the absent id `"exp_2"` on the
sample document produce exactly the descriptive error strings. -/
theorem C9_witness :
    get_section sampleDoc "foo" = "Error: Invalid section \x27foo\x27. Valid sections: [\x27summary\x27, \x27experiences\x27, \x27skills\x27, \x27projects\x27, \x27education\x27]"
  ∧ get_experience_by_id sampleDoc "exp_2" = "Error: Experience with ID \x27exp_2\x27 not found." := by
  have h := C9_unknown_lookup_returns_error sampleDoc
  exact ⟨h.1 "foo" (by decide), h.2.1 "exp_2" (by decide)⟩

/-- C10: `remove_skill` strips its argument before matching, so padding the
argument with whitespace on either side changes neither the returned message
nor the resulting skills list. -/
theorem C10_remove_skill_ignores_padding (d : Resume) (s w1 w2 : String)
    (h1 : ∀ c ∈ w1.data, isPySpace c) (h2 : ∀ c ∈ w2.data, isPySpace c) :
    remove_skill d (w1 ++ s ++ w2) = remove_skill d s := by
  unfold remove_skill
  rw [pystrip_pad w1 s w2 h1 h2]

/-- C10 witness: `remove_skill` treats `"  Python "` like `"Python"` on the
sample document. -/
theorem C10_witness :
    remove_skill sampleDoc ("  " ++ "Python" ++ " ") = remove_skill sampleDoc "Python" :=
  C10_remove_skill_ignores_padding sampleDoc "Python" "  " " " (by decide) (by decide)

theorem all_jstr (l : List String) : (l.map JValue.jstr).all isJStr = true := by
  induction l with
  | nil => rfl
  | cons x xs ih => simp [List.all_cons, ih, isJStr]

theorem all_validExp (l : List Experience) :
    (l.map experienceToJson).all validExperienceJ = true := by
  induction l with
  | nil => rfl
  | cons e rest ih =>
      simp only [List.map_cons, List.all_cons, ih, Bool.and_true]
      show (validExperienceJ (experienceToJson e)) = true
      show ((e.bullets.map JValue.jstr).all isJStr) = true
      exact all_jstr e.bullets

theorem all_validProj (l : List Project) :
    (l.map projectToJson).all validProjectJ = true := by
  induction l with
  | nil => rfl
  | cons p rest ih =>
      simp only [List.map_cons, List.all_cons, ih, Bool.and_true]
      rfl

theorem all_validEdu (l : List Education) :
    (l.map educationToJson).all validEducationJ = true := by
  induction l with
  | nil => rfl
  | cons e rest ih =>
      simp only [List.map_cons, List.all_cons, ih, Bool.and_true]
      rfl

/-- An empty document with only a summary, used as the base of concrete
counterexamples. -/
def docE : Resume := { summary := "s", experiences := [], skills := [], projects := [], education := [] }

/-- C3 (amended): the Pydantic schema enforces field presence and field types
only — it accepts every well-typed document, in particular documents whose
required string fields are empty; a document missing `summary` or giving it a
non-string value is rejected, while an empty-string `summary` passes. -/
theorem C3_amended_validator_checks_presence_and_types :
    (∀ r : Resume, validResumeJ (resumeToJson r) = true)
  ∧ validResumeJ (.jobj []) = false
  ∧ validResumeJ (.jobj [("summary", .jnum 3)]) = false
  ∧ validResumeJ (.jobj [("summary", .jstr "")]) = true := by
  refine ⟨?_, by decide, by decide, by decide⟩
  intro r
  show ((((r.experiences.map experienceToJson).all validExperienceJ &&
        (r.skills.map JValue.jstr).all isJStr) &&
        (r.projects.map projectToJson).all validProjectJ) &&
        (r.education.map educationToJson).all validEducationJ) = true
  rw [all_validExp, all_jstr, all_validProj, all_validEdu]
  rfl

/-- C3 counterexample: `add_experience` with an empty company succeeds and the
persisted document contains the empty required string — and the schema
validator accepts the persisted document, contradicting both the claimed
rejection of empty required strings and the claimed consequence that no such
document is ever persisted. -/
theorem C3_counterexample :
    add_experience docE "" "R" "D" none =
      some ("Experience added successfully with ID: exp_1",
            { docE with experiences := [{ id := "exp_1", company := "", role := "R",
                                          dates := "D", bullets := [] }] })
  ∧ validResumeJ (resumeToJson
      { docE with experiences := [{ id := "exp_1", company := "", role := "R",
                                    dates := "D", bullets := [] }] }) = true :=
  ⟨by decide, by decide⟩

/-- C8: skills behave like a case-sensitively deduplicated sequence.  On a
document holding at most one copy of the (stripped) skill, adding it twice
makes the second call report the already-exists message and leaves exactly one
copy in the list; removing an absent skill is a not-found error that leaves
the document unchanged. -/
theorem C8_skill_uniqueness (d : Resume) (s t : String)
    (hs : pystrip s ≠ "") (hcount : d.skills.count (pystrip s) ≤ 1) :
    ((add_skill ((add_skill d s).2) s).1 = "Skill \x27" ++ pystrip s ++ "\x27 already exists."
     ∧ ((add_skill ((add_skill d s).2) s).2).skills.count (pystrip s) = 1)
  ∧ (pystrip t ∉ d.skills →
     remove_skill d t = ("Error: Skill \x27" ++ pystrip t ++ "\x27 not found.", d)) := by
  constructor
  · have hc := not_empty_cond s hs
    by_cases hin : pystrip s ∈ d.skills
    · have h1 : add_skill d s = ("Skill \x27" ++ pystrip s ++ "\x27 already exists.", d) := by
        unfold add_skill
        rw [hc]
        simp only [Bool.false_eq_true, if_false]
        rw [if_pos hin]
      have hpos : 0 < d.skills.count (pystrip s) := List.count_pos_iff.mpr hin
      simp only [h1]
      exact ⟨trivial, by omega⟩
    · have h1 : add_skill d s = ("Resume saved successfully.", { d with skills := d.skills ++ [pystrip s] }) := by
        unfold add_skill
        rw [hc]
        simp only [Bool.false_eq_true, if_false]
        rw [if_neg hin]
        rfl
      have hin2 : pystrip s ∈ d.skills ++ [pystrip s] := List.mem_append_right _ (List.mem_singleton_self _)
      have h2 : add_skill { d with skills := d.skills ++ [pystrip s] } s =
          ("Skill \x27" ++ pystrip s ++ "\x27 already exists.", { d with skills := d.skills ++ [pystrip s] }) := by
        unfold add_skill
        rw [hc]
        simp only [Bool.false_eq_true, if_false]
        rw [if_pos hin2]
      simp only [h1, h2]
      refine ⟨trivial, ?_⟩
      rw [List.count_append, List.count_eq_zero.mpr hin]
      simp
  · intro ht
    unfold remove_skill
    rw [if_neg ht]

/-- C8 witness: adding `"Go"` twice to the sample document yields the
already-exists message and one copy; removing the absent `"Rust"` is a
not-found error leaving the document unchanged. -/
theorem C8_witness :
    ((add_skill ((add_skill sampleDoc "Go").2) "Go").1 = "Skill \x27" ++ pystrip "Go" ++ "\x27 already exists."
     ∧ ((add_skill ((add_skill sampleDoc "Go").2) "Go").2).skills.count (pystrip "Go") = 1)
  ∧ remove_skill sampleDoc "Rust" = ("Error: Skill \x27" ++ pystrip "Rust" ++ "\x27 not found.", sampleDoc) :=
  ⟨(C8_skill_uniqueness sampleDoc "Go" "Rust" (by decide) (by decide)).1,
   (C8_skill_uniqueness sampleDoc "Go" "Rust" (by decide) (by decide)).2 (by decide)⟩

/-! ## Locating and modifying the first id match -/

theorem find_experience_id (l : List Experience) (eid : String) (e : Experience)
    (h : find_experience l eid = some e) : e.id = eid := by
  induction l with
  | nil => cases h
  | cons a rest ih =>
      unfold find_experience at h
      by_cases ha : a.id = eid
      · rw [if_pos ha] at h
        injection h with h
        rw [← h]
        exact ha
      · rw [if_neg ha] at h
        exact ih h

theorem find_project_id (l : List Project) (pid : String) (p : Project)
    (h : find_project l pid = some p) : p.id = pid := by
  induction l with
  | nil => cases h
  | cons a rest ih =>
      unfold find_project at h
      by_cases ha : a.id = pid
      · rw [if_pos ha] at h
        injection h with h
        rw [← h]
        exact ha
      · rw [if_neg ha] at h
        exact ih h

theorem find_education_id (l : List Education) (eid : String) (e : Education)
    (h : find_education l eid = some e) : e.id = eid := by
  induction l with
  | nil => cases h
  | cons a rest ih =>
      unfold find_education at h
      by_cases ha : a.id = eid
      · rw [if_pos ha] at h
        injection h with h
        rw [← h]
        exact ha
      · rw [if_neg ha] at h
        exact ih h

/-- When the lookup loop finds an entry, the modify loop replaces exactly that
entry, and an id-preserving modification stays retrievable under the same id. -/
theorem modify_experience_of_found (l : List Experience) (eid : String)
    (f : Experience → Experience) (e : Experience)
    (h : find_experience l eid = some e) :
    ∃ l2, modify_experience l eid f = some l2 ∧
      ((f e).id = eid → find_experience l2 eid = some (f e)) := by
  induction l with
  | nil => cases h
  | cons a rest ih =>
      unfold find_experience at h
      by_cases ha : a.id = eid
      · rw [if_pos ha] at h
        injection h with h
        subst h
        refine ⟨f a :: rest, ?_, ?_⟩
        · unfold modify_experience
          rw [if_pos ha]
        · intro hid
          unfold find_experience
          rw [if_pos hid]
      · rw [if_neg ha] at h
        obtain ⟨l2, hm, hf⟩ := ih h
        refine ⟨a :: l2, ?_, ?_⟩
        · unfold modify_experience
          rw [if_neg ha, hm]
          rfl
        · intro hid
          unfold find_experience
          rw [if_neg ha]
          exact hf hid

theorem modify_project_of_found (l : List Project) (pid : String)
    (f : Project → Project) (p : Project)
    (h : find_project l pid = some p) :
    ∃ l2, modify_project l pid f = some l2 ∧
      ((f p).id = pid → find_project l2 pid = some (f p)) := by
  induction l with
  | nil => cases h
  | cons a rest ih =>
      unfold find_project at h
      by_cases ha : a.id = pid
      · rw [if_pos ha] at h
        injection h with h
        subst h
        refine ⟨f a :: rest, ?_, ?_⟩
        · unfold modify_project
          rw [if_pos ha]
        · intro hid
          unfold find_project
          rw [if_pos hid]
      · rw [if_neg ha] at h
        obtain ⟨l2, hm, hf⟩ := ih h
        refine ⟨a :: l2, ?_, ?_⟩
        · unfold modify_project
          rw [if_neg ha, hm]
          rfl
        · intro hid
          unfold find_project
          rw [if_neg ha]
          exact hf hid

theorem modify_education_of_found (l : List Education) (eid : String)
    (f : Education → Education) (e : Education)
    (h : find_education l eid = some e) :
    ∃ l2, modify_education l eid f = some l2 ∧
      ((f e).id = eid → find_education l2 eid = some (f e)) := by
  induction l with
  | nil => cases h
  | cons a rest ih =>
      unfold find_education at h
      by_cases ha : a.id = eid
      · rw [if_pos ha] at h
        injection h with h
        subst h
        refine ⟨f a :: rest, ?_, ?_⟩
        · unfold modify_education
          rw [if_pos ha]
        · intro hid
          unfold find_education
          rw [if_pos hid]
      · rw [if_neg ha] at h
        obtain ⟨l2, hm, hf⟩ := ih h
        refine ⟨a :: l2, ?_, ?_⟩
        · unfold modify_education
          rw [if_neg ha, hm]
          rfl
        · intro hid
          unfold find_education
          rw [if_neg ha]
          exact hf hid

/-- The cascade of `if` field updates in `update_experience`, written as one
record update: truthy arguments are stored raw, the rest keep their value. -/
theorem apply_experience_update_eq (e : Experience) (c r dt : Option String) :
    apply_experience_update e c r dt =
      { e with company := if truthyStr c then c.getD "" else e.company,
               role := if truthyStr r then r.getD "" else e.role,
               dates := if truthyStr dt then dt.getD "" else e.dates } := by
  unfold apply_experience_update
  by_cases hc : truthyStr c <;> by_cases hr : truthyStr r <;> by_cases hdt : truthyStr dt <;>
    simp [hc, hr, hdt]

theorem apply_project_update_eq (p : Project) (n ds : Option String) :
    apply_project_update p n ds =
      { p with name := if truthyStr n then pystrip (n.getD "") else p.name,
               description := if truthyStr ds then pystrip (ds.getD "") else p.description } := by
  unfold apply_project_update
  by_cases hn : truthyStr n <;> by_cases hds : truthyStr ds <;> simp [hn, hds]

theorem apply_education_update_eq (e : Education) (dg ins y : Option String) :
    apply_education_update e dg ins y =
      { e with degree := if truthyStr dg then pystrip (dg.getD "") else e.degree,
               institution := if truthyStr ins then pystrip (ins.getD "") else e.institution,
               year := if truthyStr y then pystrip (y.getD "") else e.year } := by
  unfold apply_education_update
  by_cases hdg : truthyStr dg <;> by_cases hins : truthyStr ins <;> by_cases hy : truthyStr y <;>
    simp [hdg, hins, hy]

/-- C4 counterexample: a whitespace-only `company` argument is truthy in
Python, so `update_experience` *does* change the field — and stores the raw,
untrimmed `" "`; likewise `update_project` with a whitespace-only `name`
clears the field to the empty string (it strips after the truthiness test),
contradicting "a whitespace-only argument never changes the field" and "no
update can set a field to the empty string". -/
theorem C4_counterexample :
    (update_experience sampleDoc "exp_1" (some " ") none none).2 ≠ sampleDoc
  ∧ find_experience ((update_experience sampleDoc "exp_1" (some " ") none none).2).experiences "exp_1"
      = some { id := "exp_1", company := " ", role := "Dev", dates := "2020", bullets := ["b1", "b2", "b3"] }
  ∧ find_project ((update_project sampleDoc "proj_1" (some " ") none).2).projects "proj_1"
      = some { id := "proj_1", name := "", description := "Web app" } :=
  ⟨by decide, by decide, by decide⟩

/-- C4 (amended): on an existing entity every update succeeds and saves;
`update_experience` replaces each field whose argument is present and non-empty
*as given* (raw, untrimmed — so a whitespace-only argument stores the
whitespace), while `update_project` and `update_education` replace each such
field by the *stripped* argument (so a whitespace-only argument clears the
field to the empty string); `None` and empty-string arguments leave the field
untouched in all three. -/
theorem C4_amended_update_semantics (d : Resume) :
    (∀ eid c r dt e, find_experience d.experiences eid = some e →
       ∃ d2, update_experience d eid c r dt = ("Resume saved successfully.", d2) ∧
         find_experience d2.experiences eid = some
           { e with company := if truthyStr c then c.getD "" else e.company,
                    role := if truthyStr r then r.getD "" else e.role,
                    dates := if truthyStr dt then dt.getD "" else e.dates })
  ∧ (∀ pid n ds p, find_project d.projects pid = some p →
       ∃ d2, update_project d pid n ds = ("Resume saved successfully.", d2) ∧
         find_project d2.projects pid = some
           { p with name := if truthyStr n then pystrip (n.getD "") else p.name,
                    description := if truthyStr ds then pystrip (ds.getD "") else p.description })
  ∧ (∀ eid dg ins y e, find_education d.education eid = some e →
       ∃ d2, update_education d eid dg ins y = ("Resume saved successfully.", d2) ∧
         find_education d2.education eid = some
           { e with degree := if truthyStr dg then pystrip (dg.getD "") else e.degree,
                    institution := if truthyStr ins then pystrip (ins.getD "") else e.institution,
                    year := if truthyStr y then pystrip (y.getD "") else e.year }) := by
  refine ⟨?_, ?_, ?_⟩
  · intro eid c r dt e hfe
    obtain ⟨l2, hm, hf⟩ :=
      modify_experience_of_found d.experiences eid (fun x => apply_experience_update x c r dt) e hfe
    have hid : (apply_experience_update e c r dt).id = eid := by
      rw [apply_experience_update_eq]
      show e.id = eid
      exact find_experience_id _ _ _ hfe
    refine ⟨{ d with experiences := l2 }, ?_, ?_⟩
    · unfold update_experience
      rw [hm]
      rfl
    · have h2 := hf hid
      rw [apply_experience_update_eq] at h2
      exact h2
  · intro pid n ds p hfp
    obtain ⟨l2, hm, hf⟩ :=
      modify_project_of_found d.projects pid (fun x => apply_project_update x n ds) p hfp
    have hid : (apply_project_update p n ds).id = pid := by
      rw [apply_project_update_eq]
      show p.id = pid
      exact find_project_id _ _ _ hfp
    refine ⟨{ d with projects := l2 }, ?_, ?_⟩
    · unfold update_project
      rw [hm]
      rfl
    · have h2 := hf hid
      rw [apply_project_update_eq] at h2
      exact h2
  · intro eid dg ins y e hfe
    obtain ⟨l2, hm, hf⟩ :=
      modify_education_of_found d.education eid (fun x => apply_education_update x dg ins y) e hfe
    have hid : (apply_education_update e dg ins y).id = eid := by
      rw [apply_education_update_eq]
      show e.id = eid
      exact find_education_id _ _ _ hfe
    refine ⟨{ d with education := l2 }, ?_, ?_⟩
    · unfold update_education
      rw [hm]
      rfl
    · have h2 := hf hid
      rw [apply_education_update_eq] at h2
      exact h2

/-- C4 witness: updating `exp_1` of the sample document with a whitespace-only
company and an absent role/dates stores the raw whitespace and keeps the other
fields. -/
theorem C4_witness :
    ∃ d2, update_experience sampleDoc "exp_1" (some " ") none none = ("Resume saved successfully.", d2) ∧
      find_experience d2.experiences "exp_1" = some
        { id := "exp_1", company := if truthyStr (some " ") then (some " ").getD "" else "Acme",
          role := if truthyStr (none : Option String) then (none : Option String).getD "" else "Dev",
          dates := if truthyStr (none : Option String) then (none : Option String).getD "" else "2020",
          bullets := ["b1", "b2", "b3"] } :=
  (C4_amended_update_semantics sampleDoc).1 "exp_1" (some " ") none none
    { id := "exp_1", company := "Acme", role := "Dev", dates := "2020", bullets := ["b1", "b2", "b3"] }
    (by decide)

/-- With the target experience found and the index out of range, the
`update_bullet` loop reports the range error (with the found experience's
current bullet count) and modifies nothing. -/
theorem update_bullet_go_out_of_range (eid : String) (i : Int) (nb : String)
    (l : List Experience) (e : Experience)
    (hfe : find_experience l eid = some e)
    (hout : ¬(0 ≤ i ∧ i < (e.bullets.length : Int))) :
    update_bullet_go eid i nb l = some (.error (bulletRangeError i e.bullets.length)) := by
  induction l with
  | nil => cases hfe
  | cons a rest ih =>
      unfold find_experience at hfe
      unfold update_bullet_go
      by_cases ha : a.id = eid
      · rw [if_pos ha] at hfe
        injection hfe with hfe
        subst hfe
        rw [if_pos ha, if_neg hout]
      · rw [if_neg ha] at hfe
        rw [if_neg ha, ih hfe]
        rfl

theorem remove_bullet_go_out_of_range (eid : String) (i : Int)
    (l : List Experience) (e : Experience)
    (hfe : find_experience l eid = some e)
    (hout : ¬(0 ≤ i ∧ i < (e.bullets.length : Int))) :
    remove_bullet_go eid i l = some (.error (bulletRangeError i e.bullets.length)) := by
  induction l with
  | nil => cases hfe
  | cons a rest ih =>
      unfold find_experience at hfe
      unfold remove_bullet_go
      by_cases ha : a.id = eid
      · rw [if_pos ha] at hfe
        injection hfe with hfe
        subst hfe
        rw [if_pos ha, if_neg hout]
      · rw [if_neg ha] at hfe
        rw [if_neg ha, ih hfe]
        rfl

/-- C7 counterexample: with an out-of-range index *and* empty bullet text,
`update_bullet` reports the empty-text error, not the out-of-range error the
claim promises for every out-of-range index (`exp_1` has 3 bullets, index 5 is
out of range, yet no out-of-range message is produced). -/
theorem C7_counterexample :
    (update_bullet sampleDoc "exp_1" 5 " ").1 = "Error: Bullet text cannot be empty."
  ∧ (update_bullet sampleDoc "exp_1" 5 " ").1 ≠ bulletRangeError 5 3 :=
  ⟨by decide, by decide⟩

/-- C7 (amended): for an experience with `n` bullets, `update_bullet` and
`remove_bullet` with an index outside `0 ≤ i < n` return the out-of-range
error naming `n` and leave the document unchanged — for `update_bullet`
provided the new text is non-empty after stripping, since the empty-text check
runs first and otherwise masks the range error. -/
theorem C7_amended_bullet_index_range (d : Resume) (eid : String) (i : Int) (nb : String)
    (e : Experience)
    (hfe : find_experience d.experiences eid = some e)
    (hout : ¬(0 ≤ i ∧ i < (e.bullets.length : Int))) :
    remove_bullet d eid i = (bulletRangeError i e.bullets.length, d)
  ∧ (pystrip nb ≠ "" → update_bullet d eid i nb = (bulletRangeError i e.bullets.length, d)) := by
  constructor
  · unfold remove_bullet
    rw [remove_bullet_go_out_of_range eid i d.experiences e hfe hout]
  · intro hb
    unfold update_bullet
    rw [not_empty_cond nb hb]
    simp only [Bool.false_eq_true, if_false]
    rw [update_bullet_go_out_of_range eid i nb d.experiences e hfe hout]

/-- C7 witness: `remove_bullet(exp_1, 5)` and `update_bullet(exp_1, 5, "x")`
on the 3-bullet experience of the sample document fail with the out-of-range
error citing count 3 and leave the document unchanged. -/
theorem C7_witness :
    remove_bullet sampleDoc "exp_1" 5 = (bulletRangeError 5 3, sampleDoc)
  ∧ update_bullet sampleDoc "exp_1" 5 "x" = (bulletRangeError 5 3, sampleDoc) := by
  have h := C7_amended_bullet_index_range sampleDoc "exp_1" 5 "x"
      { id := "exp_1", company := "Acme", role := "Dev", dates := "2020", bullets := ["b1", "b2", "b3"] }
      (by decide) (by decide)
  exact ⟨h.1, h.2 (by decide)⟩

/-- C5 counterexample: `add_experience` stores its string fields untrimmed —
the stored company is `"  Acme  "`, not the trimmed `"Acme"` the claim
requires after a successful add. -/
theorem C5_counterexample :
    add_experience docE "  Acme  " "Dev" "2020" (some ["  b  "]) =
      some ("Experience added successfully with ID: exp_1",
            { docE with experiences := [{ id := "exp_1", company := "  Acme  ", role := "Dev",
                                          dates := "2020", bullets := ["  b  "] }] })
  ∧ pystrip "  Acme  " = "Acme"
  ∧ ("  Acme  " : String) ≠ "Acme" :=
  ⟨by decide, by decide, by decide⟩

/-- C5 (amended): `add_project`, `add_education`, `add_skill` and `add_bullet`
strip leading/trailing whitespace from each string field before storing, and
the stored entity is retrievable with exactly the stripped fields;
`add_experience` instead stores company, role, dates and the bullets exactly
as passed, untrimmed. -/
theorem C5_amended_trimming (d : Resume) (sfxE sfxP sfxD : List Int)
    (hE : (matchingIds "exp_" (d.experiences.map (fun e => e.id))).mapM idSuffix? = some sfxE)
    (hP : (matchingIds "proj_" (d.projects.map (fun p => p.id))).mapM idSuffix? = some sfxP)
    (hD : (matchingIds "edu_" (d.education.map (fun e => e.id))).mapM idSuffix? = some sfxD) :
    (∀ c r dt b, ∃ i, add_experience d c r dt b =
        some ("Experience added successfully with ID: " ++ i,
              { d with experiences := { id := i, company := c, role := r, dates := dt,
                                        bullets := b.getD [] } :: d.experiences }))
  ∧ (∀ n ds, pystrip n ≠ "" → pystrip ds ≠ "" → ∃ i, add_project d n ds =
        some ("Project added successfully with ID: " ++ i,
              { d with projects := d.projects ++
                  [{ id := i, name := pystrip n, description := pystrip ds }] }))
  ∧ (∀ dg ins y, pystrip dg ≠ "" → pystrip ins ≠ "" → pystrip y ≠ "" → ∃ i, add_education d dg ins y =
        some ("Education added successfully with ID: " ++ i,
              { d with education := d.education ++
                  [{ id := i, degree := pystrip dg, institution := pystrip ins, year := pystrip y }] }))
  ∧ (∀ s, pystrip s ≠ "" → pystrip s ∉ d.skills →
        add_skill d s = ("Resume saved successfully.", { d with skills := d.skills ++ [pystrip s] }))
  ∧ (∀ eid b e, pystrip b ≠ "" → find_experience d.experiences eid = some e →
        ∃ d2, add_bullet d eid b = ("Resume saved successfully.", d2) ∧
          find_experience d2.experiences eid = some { e with bullets := e.bullets ++ [pystrip b] }) := by
  refine ⟨?_, ?_, ?_, ?_, ?_⟩
  · intro c r dt b
    unfold add_experience
    rw [hE]
    exact ⟨"exp_" ++ toString (pyMaxD sfxE 0 + 1), rfl⟩
  · intro n ds hn hds
    unfold add_project
    rw [not_empty_cond n hn, not_empty_cond ds hds]
    simp only [Bool.false_eq_true, if_false]
    rw [hP]
    exact ⟨"proj_" ++ toString (pyMaxD sfxP 0 + 1), rfl⟩
  · intro dg ins y hdg hins hy
    unfold add_education
    rw [not_empty_cond dg hdg, not_empty_cond ins hins, not_empty_cond y hy]
    simp only [Bool.false_eq_true, if_false]
    rw [hD]
    exact ⟨"edu_" ++ toString (pyMaxD sfxD 0 + 1), rfl⟩
  · intro s hs hnotin
    unfold add_skill
    rw [not_empty_cond s hs]
    simp only [Bool.false_eq_true, if_false]
    rw [if_neg hnotin]
    rfl
  · intro eid b e hb hfe
    obtain ⟨l2, hm, hf⟩ :=
      modify_experience_of_found d.experiences eid
        (fun x => { x with bullets := x.bullets ++ [pystrip b] }) e hfe
    have hid : ({ e with bullets := e.bullets ++ [pystrip b] } : Experience).id = eid := by
      show e.id = eid
      exact find_experience_id _ _ _ hfe
    unfold add_bullet
    rw [not_empty_cond b hb]
    simp only [Bool.false_eq_true, if_false]
    rw [hm]
    exact ⟨_, rfl, hf hid⟩

/-- C5 witness: on the sample document `add_project` stores the stripped name
and description, and `add_bullet` appends the stripped bullet to `exp_1`. -/
theorem C5_witness :
    (∃ i, add_project sampleDoc " P2 " "  D2 " =
        some ("Project added successfully with ID: " ++ i,
              { sampleDoc with projects := sampleDoc.projects ++
                  [{ id := i, name := pystrip " P2 ", description := pystrip "  D2 " }] }))
  ∧ (∃ d2, add_bullet sampleDoc "exp_1" " b4 " = ("Resume saved successfully.", d2) ∧
        find_experience d2.experiences "exp_1" = some
          { id := "exp_1", company := "Acme", role := "Dev", dates := "2020",
            bullets := ["b1", "b2", "b3"] ++ [pystrip " b4 "] }) := by
  have h := C5_amended_trimming sampleDoc [1, 3] [1] [1] (by decide) (by decide) (by decide)
  exact ⟨h.2.1 " P2 " "  D2 " (by decide) (by decide),
         h.2.2.2.2 "exp_1" " b4 "
           { id := "exp_1", company := "Acme", role := "Dev", dates := "2020",
             bullets := ["b1", "b2", "b3"] } (by decide) (by decide)⟩

end ResumeForge
